import Mathlib

/-
Verification of the OpenGL-3DScene repository (Netwig-OpenGL-3DScene.cpp).
The parametric surface mesher (Cylinder.cpp / Sphere.cpp, geometry code by
Song Ho Ahn) is referenced by the main translation unit but its sources are
not part of the repository snapshot, so the mesher is modelled from the
specification (spec.md sections 3, 4.1, 7).  Everything else (the fragment
shader, GLObject.CreateMesh / DestroyTexture, the P-key projection toggle)
is embedded from Netwig-OpenGL-3DScene.cpp directly.
-/

-- ======================================================================
-- Basic 3-vector operations over the reals (geometry layer)
-- ======================================================================

/-- Componentwise difference of two 3-vectors. -/
noncomputable def vsub (a b : ℝ × ℝ × ℝ) : ℝ × ℝ × ℝ :=
  (a.1 - b.1, a.2.1 - b.2.1, a.2.2 - b.2.2)

/-- Componentwise sum of two 3-vectors. -/
noncomputable def vadd (a b : ℝ × ℝ × ℝ) : ℝ × ℝ × ℝ :=
  (a.1 + b.1, a.2.1 + b.2.1, a.2.2 + b.2.2)

/-- Scalar multiple of a 3-vector. -/
noncomputable def vscale (c : ℝ) (a : ℝ × ℝ × ℝ) : ℝ × ℝ × ℝ :=
  (c * a.1, c * a.2.1, c * a.2.2)

/-- Dot product of two 3-vectors. -/
noncomputable def vdot (a b : ℝ × ℝ × ℝ) : ℝ :=
  a.1 * b.1 + a.2.1 * b.2.1 + a.2.2 * b.2.2

/-- Cross product of two 3-vectors. -/
noncomputable def vcross (a b : ℝ × ℝ × ℝ) : ℝ × ℝ × ℝ :=
  (a.2.1 * b.2.2 - a.2.2 * b.2.1,
   a.2.2 * b.1 - a.1 * b.2.2,
   a.1 * b.2.1 - a.2.1 * b.1)

/-- Euclidean length of a 3-vector. -/
noncomputable def vnorm (a : ℝ × ℝ × ℝ) : ℝ :=
  Real.sqrt (vdot a a)

/-- One interleaved vertex record: position, normal, texture coordinate
(the fixed stride 3+3+2 layout of spec.md section 3 and of
GLObject.CreateMesh). -/
structure Vertex where
  pos : ℝ × ℝ × ℝ
  normal : ℝ × ℝ × ℝ
  uv : ℝ × ℝ

/-- Default vertex record, used only as the default of List.getD. -/
noncomputable def vertex0 : Vertex :=
  { pos := (0, 0, 0), normal := (0, 0, 0), uv := (0, 0) }

-- ======================================================================
-- Parametric surface mesher, modelled from the spec
-- ======================================================================

/-- Modelled from the spec: sector counts below the closure minimum 3 are
clamped to the minimum usable value (spec.md sections 3 and 7). -/
def clampSectors (sectorCount : ℕ) : ℕ :=
  if sectorCount < 3 then 3 else sectorCount

/-- Modelled from the spec: cylinder stack counts below 1 are clamped to 1
(spec.md sections 3 and 7). -/
def clampCylStacks (stackCount : ℕ) : ℕ :=
  if stackCount < 1 then 1 else stackCount

/-- Modelled from the spec: sphere stack counts below 2 are clamped to 2
(spec.md sections 3 and 7). -/
def clampSphStacks (stackCount : ℕ) : ℕ :=
  if stackCount < 2 then 2 else stackCount

/-- Modelled from the spec: the sector angle of sector index j,
j * 2 * pi / sectorCount, tiling the full circle exactly. -/
noncomputable def sectorAngle (sectorCount j : ℕ) : ℝ :=
  (j : ℝ) * (2 * Real.pi / (sectorCount : ℝ))

/-- Modelled from the spec (Cylinder.cpp is not under src/): side-surface
vertex of the cylinder at stack level i, sector index j.  Radius and z are
interpolated linearly across stack levels; the smooth side normal is the
unit vector perpendicular to the slant of the cone formed by
(baseRadius, topRadius, height), independent of the stack level; the
texture coordinate is (j / sectorCount, 1 - i / stackCount). -/
noncomputable def cylSideVertex (baseRadius topRadius height : ℝ)
    (sectorCount stackCount i j : ℕ) : Vertex :=
  let radius : ℝ := baseRadius + (topRadius - baseRadius) * ((i : ℝ) / (stackCount : ℝ))
  let z : ℝ := -height / 2 + height * ((i : ℝ) / (stackCount : ℝ))
  let a : ℝ := sectorAngle sectorCount j
  let slant : ℝ := Real.sqrt (height ^ 2 + (baseRadius - topRadius) ^ 2)
  { pos := (radius * Real.cos a, radius * Real.sin a, z)
    normal := ((height / slant) * Real.cos a, (height / slant) * Real.sin a,
               (baseRadius - topRadius) / slant)
    uv := ((j : ℝ) / (sectorCount : ℝ), 1 - (i : ℝ) / (stackCount : ℝ)) }

/-- Modelled from the spec: center vertex of a flat cap, added once per cap,
with the flat cap normal (0,0,-1) for the base and (0,0,1) for the top. -/
noncomputable def cylCapCenterVertex (height : ℝ) (top : Bool) : Vertex :=
  { pos := (0, 0, if top then height / 2 else -height / 2)
    normal := (0, 0, if top then 1 else -1)
    uv := (1 / 2, 1 / 2) }

/-- Modelled from the spec: cap rim vertex at sector index j, duplicated
from the side-surface rim because its flat normal and its disk-projection
texture coordinate differ from the side-surface ones. -/
noncomputable def cylCapRimVertex (baseRadius topRadius height : ℝ)
    (sectorCount : ℕ) (top : Bool) (j : ℕ) : Vertex :=
  let radius : ℝ := if top then topRadius else baseRadius
  let a : ℝ := sectorAngle sectorCount j
  { pos := (radius * Real.cos a, radius * Real.sin a,
            if top then height / 2 else -height / 2)
    normal := (0, 0, if top then 1 else -1)
    uv := (Real.cos a / 2 + 1 / 2, Real.sin a / 2 + 1 / 2) }

/-- Modelled from the spec (Cylinder.cpp is not under src/): the cylinder
vertex sequence.  Side rings for stack levels 0..stackCount, each ring
holding sector indices 0..sectorCount (the index-sectorCount vertex is the
duplicate seam vertex required for texture wrap), followed by the base cap
(center then rim) and the top cap (center then rim); counts are clamped
first.  Generation is a total function: it never fails and never produces
a partial mesh. -/
noncomputable def cylinderVertices (baseRadius topRadius height : ℝ)
    (sectorCount stackCount : ℕ) : List Vertex :=
  let m := clampSectors sectorCount
  let s := clampCylStacks stackCount
  ((List.range (s + 1)).flatMap fun i =>
    (List.range (m + 1)).map fun j =>
      cylSideVertex baseRadius topRadius height m s i j)
  ++ (cylCapCenterVertex height false ::
      ((List.range (m + 1)).map fun j =>
        cylCapRimVertex baseRadius topRadius height m false j))
  ++ (cylCapCenterVertex height true ::
      ((List.range (m + 1)).map fun j =>
        cylCapRimVertex baseRadius topRadius height m true j))

/-- Number of cylinder vertex records:
(stackCount+1) side rings of (sectorCount+1) vertices, plus two caps of
one center and (sectorCount+1) rim vertices each (clamped counts). -/
def cylinderVertexCount (sectorCount stackCount : ℕ) : ℕ :=
  let m := clampSectors sectorCount
  let s := clampCylStacks stackCount
  (s + 1) * (m + 1) + 2 * (m + 2)

/-- Modelled from the spec: the cylinder triangle list.  Side faces are
quads split into two triangles per (sector, stack) cell, wound
counter-clockwise seen from outside; each cap is a triangle fan from its
center to its rim, wound outward from its face. -/
def cylinderTriangles (sectorCount stackCount : ℕ) : List (ℕ × ℕ × ℕ) :=
  let m := clampSectors sectorCount
  let s := clampCylStacks stackCount
  let baseCenter := (s + 1) * (m + 1)
  let topCenter := baseCenter + (m + 2)
  ((List.range s).flatMap fun i =>
    (List.range m).flatMap fun j =>
      let k1 := i * (m + 1) + j
      let k2 := k1 + (m + 1)
      [(k1, k1 + 1, k2), (k2, k1 + 1, k2 + 1)])
  ++ ((List.range m).map fun j =>
      (baseCenter, baseCenter + 1 + (j + 1), baseCenter + 1 + j))
  ++ ((List.range m).map fun j =>
      (topCenter, topCenter + 1 + j, topCenter + 1 + (j + 1)))

/-- The flat 16-bit index list of the cylinder, three entries per triangle. -/
def cylinderIndices (sectorCount stackCount : ℕ) : List ℕ :=
  (cylinderTriangles sectorCount stackCount).flatMap fun t => [t.1, t.2.1, t.2.2]

/-- getIndexSize of the cylinder: byte size of the index buffer, two bytes
per 16-bit index (spec.md section 6). -/
def cylinderIndexByteSize (sectorCount stackCount : ℕ) : ℕ :=
  2 * (cylinderIndices sectorCount stackCount).length

/-- GLObject.CreateMesh, src line 469: nIndices is the index byte size
divided by sizeof(GLushort) = 2. -/
def createMeshNIndices (indexByteSize : ℕ) : ℕ :=
  indexByteSize / 2

/-- Modelled from the spec (Sphere.cpp is not under src/): sphere vertex at
stack i (latitude from +pi/2 at the top pole down to -pi/2) and sector j
(longitude).  The normal is the closed-form identity position / radius,
not an average of face normals; the texture coordinate is
(j / sectorCount, i / stackCount). -/
noncomputable def sphereVertex (radius : ℝ) (sectorCount stackCount i j : ℕ) : Vertex :=
  let phi : ℝ := Real.pi / 2 - (i : ℝ) * (Real.pi / (stackCount : ℝ))
  let a : ℝ := sectorAngle sectorCount j
  { pos := (radius * Real.cos phi * Real.cos a,
            radius * Real.cos phi * Real.sin a,
            radius * Real.sin phi)
    normal := (Real.cos phi * Real.cos a, Real.cos phi * Real.sin a, Real.sin phi)
    uv := ((j : ℝ) / (sectorCount : ℝ), (i : ℝ) / (stackCount : ℝ)) }

/-- Modelled from the spec (Sphere.cpp is not under src/): the sphere vertex
sequence, one ring of sector indices 0..sectorCount per stack 0..stackCount
(pole rows emit one vertex per sector purely to carry distinct texture
coordinates); counts are clamped first.  Generation is a total function. -/
noncomputable def sphereVertices (radius : ℝ) (sectorCount stackCount : ℕ) : List Vertex :=
  let m := clampSectors sectorCount
  let s := clampSphStacks stackCount
  (List.range (s + 1)).flatMap fun i =>
    (List.range (m + 1)).map fun j => sphereVertex radius m s i j

/-- Number of sphere vertex records (clamped counts). -/
def sphereVertexCount (sectorCount stackCount : ℕ) : ℕ :=
  (clampSphStacks stackCount + 1) * (clampSectors sectorCount + 1)

/-- Modelled from the spec: the sphere triangle list.  Interior cells emit
two triangles per quad; the rows adjacent to a pole emit one triangle per
sector, skipping the degenerate zero-area triangle. -/
def sphereTriangles (sectorCount stackCount : ℕ) : List (ℕ × ℕ × ℕ) :=
  let m := clampSectors sectorCount
  let s := clampSphStacks stackCount
  (List.range s).flatMap fun i =>
    (List.range m).flatMap fun j =>
      let k1 := i * (m + 1) + j
      let k2 := k1 + (m + 1)
      (if i ≠ 0 then [(k1, k2, k1 + 1)] else []) ++
      (if i ≠ s - 1 then [(k1 + 1, k2, k2 + 1)] else [])

/-- The flat 16-bit index list of the sphere. -/
def sphereIndices (sectorCount stackCount : ℕ) : List ℕ :=
  (sphereTriangles sectorCount stackCount).flatMap fun t => [t.1, t.2.1, t.2.2]

/-- getIndexSize of the sphere: byte size of the index buffer. -/
def sphereIndexByteSize (sectorCount stackCount : ℕ) : ℕ :=
  2 * (sphereIndices sectorCount stackCount).length

/-- The three vertex positions a stored index triangle refers to in the
interleaved vertex sequence. -/
noncomputable def resolveTriangle (vs : List Vertex) (t : ℕ × ℕ × ℕ) :
    (ℝ × ℝ × ℝ) × (ℝ × ℝ × ℝ) × (ℝ × ℝ × ℝ) :=
  ((vs.getD t.1 vertex0).pos, (vs.getD t.2.1 vertex0).pos, (vs.getD t.2.2 vertex0).pos)

/-- Face normal of a triangle from its winding: cross product of its two
edge vectors taken from the first vertex. -/
noncomputable def triangleFaceNormal (p : (ℝ × ℝ × ℝ) × (ℝ × ℝ × ℝ) × (ℝ × ℝ × ℝ)) :
    ℝ × ℝ × ℝ :=
  vcross (vsub p.2.1 p.1) (vsub p.2.2 p.1)

/-- Centroid of a triangle (its position vector from the mesh center, which
is the origin for the generated primitives). -/
noncomputable def triangleCentroid (p : (ℝ × ℝ × ℝ) × (ℝ × ℝ × ℝ) × (ℝ × ℝ × ℝ)) :
    ℝ × ℝ × ℝ :=
  vscale (1 / 3) (vadd p.1 (vadd p.2.1 p.2.2))

-- ======================================================================
-- Fragment shader (fragmentShaderSource, src lines 209-270), over ℚ
-- ======================================================================

/-- Componentwise difference of rational 3-vectors. -/
def qsub (a b : ℚ × ℚ × ℚ) : ℚ × ℚ × ℚ :=
  (a.1 - b.1, a.2.1 - b.2.1, a.2.2 - b.2.2)

/-- Componentwise sum of rational 3-vectors. -/
def qadd (a b : ℚ × ℚ × ℚ) : ℚ × ℚ × ℚ :=
  (a.1 + b.1, a.2.1 + b.2.1, a.2.2 + b.2.2)

/-- Scalar multiple of a rational 3-vector. -/
def qscale (c : ℚ) (a : ℚ × ℚ × ℚ) : ℚ × ℚ × ℚ :=
  (c * a.1, c * a.2.1, c * a.2.2)

/-- Componentwise (Hadamard) product, the GLSL vec3 * vec3. -/
def qmul (a b : ℚ × ℚ × ℚ) : ℚ × ℚ × ℚ :=
  (a.1 * b.1, a.2.1 * b.2.1, a.2.2 * b.2.2)

/-- Dot product of rational 3-vectors. -/
def qdot (a b : ℚ × ℚ × ℚ) : ℚ :=
  a.1 * b.1 + a.2.1 * b.2.1 + a.2.2 * b.2.2

/-- Rational square root: exact on rationals that are squares of rationals
in lowest terms (the only inputs the development evaluates it at), standing
in for the float sqrt of the GLSL normalize. -/
def ratSqrt (q : ℚ) : ℚ :=
  ((Nat.sqrt q.num.toNat : ℤ) : ℚ) / ((Nat.sqrt q.den : ℤ) : ℚ)

/-- GLSL normalize: the vector divided by its length. -/
def qnormalize (v : ℚ × ℚ × ℚ) : ℚ × ℚ × ℚ :=
  qscale (1 / ratSqrt (qdot v v)) v

/-- GLSL reflect(I, N) = I - 2 * dot(N, I) * N. -/
def qreflect (i n : ℚ × ℚ × ℚ) : ℚ × ℚ × ℚ :=
  qsub i (qscale (2 * qdot n i) n)

/-- The per-fragment inputs and uniforms of fragmentShaderSource: the single
lightColor / lightPos uniform pair, viewPosition, the interpolated normal
and world-space fragment position, and the sampled texture color. -/
structure FragmentInput where
  lightColor : ℚ × ℚ × ℚ
  lightPos : ℚ × ℚ × ℚ
  viewPosition : ℚ × ℚ × ℚ
  vertexNormal : ℚ × ℚ × ℚ
  vertexFragmentPos : ℚ × ℚ × ℚ
  textureColor : ℚ × ℚ × ℚ

/-- The ambient + diffuse + specular sum of the Phong model exactly as the
shader main() computes it for one light: ambientStrength 0.1, diffuse
impact max(dot(norm, lightDirection), 0), specularIntensity 0.8 with
highlight exponent 16 (src lines 237-254). -/
def phongTerms (lightColor lightPos viewPosition vertexNormal vertexFragmentPos :
    ℚ × ℚ × ℚ) : ℚ × ℚ × ℚ :=
  let ambientStrength : ℚ := 1 / 10
  let ambient := qscale ambientStrength lightColor
  let norm := qnormalize vertexNormal
  let lightDirection := qnormalize (qsub lightPos vertexFragmentPos)
  let impact := max (qdot norm lightDirection) 0
  let diffuse := qscale impact lightColor
  let specularIntensity : ℚ := 4 / 5
  let viewDir := qnormalize (qsub viewPosition vertexFragmentPos)
  let reflectDir := qreflect (qscale (-1) lightDirection) norm
  let specularComponent := (max (qdot viewDir reflectDir) 0) ^ 16
  let specular := qscale (specularIntensity * specularComponent) lightColor
  qadd ambient (qadd diffuse specular)

/-- main() of fragmentShaderSource: phong = (ambient + diffuse + specular)
* textureColor.xyz, computed from the one lightColor / lightPos uniform
pair the shader has (src lines 230-265). -/
def fragmentShaderMain (u : FragmentInput) : ℚ × ℚ × ℚ :=
  qmul (phongTerms u.lightColor u.lightPos u.viewPosition u.vertexNormal
          u.vertexFragmentPos)
       u.textureColor

/-- Modelled from the spec: the claimed two-source Phong shading, in which
the fragment color sums the ambient, diffuse and specular contributions of
both the main light and the fill light before multiplying by the texture
color.  This definition follows the words of the spec and of the claim; it
is the comparison point for the shader the code actually runs. -/
def twoSourcePhongShade (mainColor mainPos fillColor fillPos viewPosition
    vertexNormal vertexFragmentPos textureColor : ℚ × ℚ × ℚ) : ℚ × ℚ × ℚ :=
  qmul (qadd (phongTerms mainColor mainPos viewPosition vertexNormal vertexFragmentPos)
             (phongTerms fillColor fillPos viewPosition vertexNormal vertexFragmentPos))
       textureColor

/-- A concrete non-lamp fragment: unit upward normal at the origin, the
light straight above at distance 2, the viewer straight above at distance
3, white texture, white full-intensity light (gLightColor is (1,1,1) every
frame, src lines 836-838).  All lengths involved are exact squares, so the
rational shader evaluates exactly as the float one would in exact
arithmetic. -/
def failInput : FragmentInput :=
  { lightColor := (1, 1, 1)
    lightPos := (0, 0, 2)
    viewPosition := (0, 0, 3)
    vertexNormal := (0, 0, 1)
    vertexFragmentPos := (0, 0, 0)
    textureColor := (1, 1, 1) }

/-- An off-white fill light at 20 percent intensity (the color the spec and
the source header comment describe for the FillLight object), placed at an
exact-length position. -/
def fillLightColor : ℚ × ℚ × ℚ := (1 / 5, 1 / 5, 17 / 100)

/-- Position of the fill light used for the comparison (length 3 from the
fragment, an exact square). -/
def fillLightPos : ℚ × ℚ × ℚ := (1, 2, 2)

-- ======================================================================
-- Texture lifecycle (GLObject.CreateTexture / DestroyTexture)
-- ======================================================================

/-- The texture-name state of the GL context: the allocated texture names
and the next fresh name. -/
structure GLTexState where
  allocated : List ℕ
  nextName : ℕ

/-- glGenTextures(1, &id): allocates one fresh texture name, returns the
new state and the generated name. -/
def glGenTexture (s : GLTexState) : GLTexState × ℕ :=
  ({ allocated := s.nextName :: s.allocated, nextName := s.nextName + 1 }, s.nextName)

/-- GLObject.DestroyTexture (src lines 537-540): its whole body is
glGenTextures(1, &textureId); the by-value parameter receives the fresh
name, which is then discarded when the function returns.  No texture is
deleted. -/
def destroyTexture (s : GLTexState) (textureId : ℕ) : GLTexState :=
  (glGenTexture s).1

/-- The teardown block of main (src lines 861-868): DestroyTexture is
called once for each of the eight scene objects. -/
def teardownTextures (s : GLTexState) (ids : List ℕ) : GLTexState :=
  ids.foldl destroyTexture s

-- ======================================================================
-- P-key projection toggle (UProcessInput, src lines 996-1009)
-- ======================================================================

/-- The global projection matrix is in one of two modes. -/
inductive ProjectionMode where
  | perspective : ProjectionMode
  | orthographic : ProjectionMode
deriving DecidableEq

/-- The globals of the toggle: PCount (src line 313) and the projection
matrix mode (src line 312). -/
structure PKeyState where
  PCount : ℕ
  projection : ProjectionMode

/-- One processed P press (src lines 996-1009): if PCount is odd the
projection is set to orthographic, else to perspective; then PCount is
incremented. -/
def processPKey (s : PKeyState) : PKeyState :=
  if s.PCount % 2 ≠ 0 then
    { PCount := s.PCount + 1, projection := ProjectionMode.orthographic }
  else
    { PCount := s.PCount + 1, projection := ProjectionMode.perspective }

/-- Startup state: PCount = 0 and the global projection matrix is the
perspective one (src lines 312-313). -/
def initialPKeyState : PKeyState :=
  { PCount := 0, projection := ProjectionMode.perspective }

/-- The state after k processed P presses. -/
def pressesP (k : ℕ) : PKeyState :=
  processPKey^[k] initialPKeyState

-- ======================================================================
-- Helper lemmas: lengths and positional access of the vertex sequences
-- ======================================================================

lemma length_flatMap_range_map {α : Type} (f : ℕ → ℕ → α) (a c : ℕ) :
    (((List.range a).flatMap fun i => (List.range c).map (f i))).length = a * c := by
  induction a with
  | zero => simp
  | succ a ih =>
    rw [List.range_succ, List.flatMap_append, List.length_append, ih]
    simp [Nat.succ_mul]

lemma getD_flatMap_range_map {α : Type} (f : ℕ → ℕ → α) (d : α) {a c i j : ℕ}
    (hi : i < a) (hj : j < c) :
    (((List.range a).flatMap fun i => (List.range c).map (f i))).getD (i * c + j) d
      = f i j := by
  induction a with
  | zero => omega
  | succ a ih =>
    rw [List.range_succ, List.flatMap_append]
    rcases Nat.lt_or_ge i a with h | h
    · rw [List.getD_append]
      · exact ih h
      · have : i * c + j < a * c := by
          calc i * c + j < i * c + c := by omega
          _ = (i + 1) * c := by ring
          _ ≤ a * c := Nat.mul_le_mul_right c (by omega)
        rw [length_flatMap_range_map]
        exact this
    · have hia : i = a := by omega
      subst hia
      rw [List.getD_append_right]
      · rw [length_flatMap_range_map]
        have hsub : i * c + j - i * c = j := by omega
        simp only [List.flatMap_cons, List.flatMap_nil, List.append_nil, hsub]
        rw [List.getD_eq_getElem _ _ (by simpa using hj)]
        simp
      · rw [length_flatMap_range_map]
        omega

lemma cylinderVertices_length (baseRadius topRadius height : ℝ) (n st : ℕ) :
    (cylinderVertices baseRadius topRadius height n st).length =
      cylinderVertexCount n st := by
  unfold cylinderVertices cylinderVertexCount
  rw [List.length_append, List.length_append, length_flatMap_range_map]
  simp
  ring

lemma sphereVertices_length (radius : ℝ) (n st : ℕ) :
    (sphereVertices radius n st).length = sphereVertexCount n st := by
  unfold sphereVertices sphereVertexCount
  rw [length_flatMap_range_map]

lemma cylinderVertices_getD_side (baseRadius topRadius height : ℝ) (n st i j : ℕ)
    (hi : i ≤ clampCylStacks st) (hj : j ≤ clampSectors n) :
    (cylinderVertices baseRadius topRadius height n st).getD
        (i * (clampSectors n + 1) + j) vertex0 =
      cylSideVertex baseRadius topRadius height (clampSectors n) (clampCylStacks st) i j := by
  have hidx : i * (clampSectors n + 1) + j <
      (clampCylStacks st + 1) * (clampSectors n + 1) := by
    calc i * (clampSectors n + 1) + j < i * (clampSectors n + 1) + (clampSectors n + 1) := by
          omega
    _ = (i + 1) * (clampSectors n + 1) := by ring
    _ ≤ (clampCylStacks st + 1) * (clampSectors n + 1) :=
        Nat.mul_le_mul_right _ (by omega)
  unfold cylinderVertices
  rw [List.getD_append, List.getD_append]
  · exact getD_flatMap_range_map _ _ (by omega) (by omega)
  · rw [length_flatMap_range_map]; exact hidx
  · rw [List.length_append, length_flatMap_range_map]
    omega

lemma cylinderVertices_getD_baseCenter (baseRadius topRadius height : ℝ) (n st : ℕ) :
    (cylinderVertices baseRadius topRadius height n st).getD
        ((clampCylStacks st + 1) * (clampSectors n + 1)) vertex0 =
      cylCapCenterVertex height false := by
  unfold cylinderVertices
  rw [List.getD_append]
  · rw [List.getD_append_right]
    · rw [length_flatMap_range_map]
      simp
    · rw [length_flatMap_range_map]
  · rw [List.length_append, length_flatMap_range_map]
    simp

lemma cylinderVertices_getD_topCenter (baseRadius topRadius height : ℝ) (n st : ℕ) :
    (cylinderVertices baseRadius topRadius height n st).getD
        ((clampCylStacks st + 1) * (clampSectors n + 1) + (clampSectors n + 2)) vertex0 =
      cylCapCenterVertex height true := by
  unfold cylinderVertices
  rw [List.getD_append_right]
  · rw [List.length_append, length_flatMap_range_map]
    have harith : (clampCylStacks st + 1) * (clampSectors n + 1) + (clampSectors n + 2) -
        ((clampCylStacks st + 1) * (clampSectors n + 1) +
          (cylCapCenterVertex height false ::
            ((List.range (clampSectors n + 1)).map fun j =>
              cylCapRimVertex baseRadius topRadius height (clampSectors n) false j)).length) = 0 := by
      simp
    rw [harith]
    simp
  · rw [List.length_append, length_flatMap_range_map]
    simp

lemma cylinderVertices_getD_baseRim (baseRadius topRadius height : ℝ) (n st j : ℕ)
    (hj : j ≤ clampSectors n) :
    (cylinderVertices baseRadius topRadius height n st).getD
        ((clampCylStacks st + 1) * (clampSectors n + 1) + 1 + j) vertex0 =
      cylCapRimVertex baseRadius topRadius height (clampSectors n) false j := by
  unfold cylinderVertices
  rw [List.getD_append]
  · rw [List.getD_append_right]
    · rw [length_flatMap_range_map]
      have harith : (clampCylStacks st + 1) * (clampSectors n + 1) + 1 + j -
          (clampCylStacks st + 1) * (clampSectors n + 1) = j + 1 := by omega
      rw [harith, List.getD_cons_succ]
      rw [List.getD_eq_getElem _ _ (by simpa using by omega)]
      simp
    · rw [length_flatMap_range_map]; omega
  · rw [List.length_append, length_flatMap_range_map]
    simp
    omega

lemma cylinderVertices_getD_topRim (baseRadius topRadius height : ℝ) (n st j : ℕ)
    (hj : j ≤ clampSectors n) :
    (cylinderVertices baseRadius topRadius height n st).getD
        ((clampCylStacks st + 1) * (clampSectors n + 1) + (clampSectors n + 2) + 1 + j)
        vertex0 =
      cylCapRimVertex baseRadius topRadius height (clampSectors n) true j := by
  unfold cylinderVertices
  rw [List.getD_append_right]
  · rw [List.length_append, length_flatMap_range_map]
    have harith : (clampCylStacks st + 1) * (clampSectors n + 1) + (clampSectors n + 2) + 1 + j -
        ((clampCylStacks st + 1) * (clampSectors n + 1) +
          (cylCapCenterVertex height false ::
            ((List.range (clampSectors n + 1)).map fun jj =>
              cylCapRimVertex baseRadius topRadius height (clampSectors n) false jj)).length) = j + 1 := by
      simp
      omega
    rw [harith, List.getD_cons_succ]
    rw [List.getD_eq_getElem _ _ (by simpa using by omega)]
    simp
  · rw [List.length_append, length_flatMap_range_map]
    simp
    omega

lemma sphereVertices_getD (radius : ℝ) (n st i j : ℕ)
    (hi : i ≤ clampSphStacks st) (hj : j ≤ clampSectors n) :
    (sphereVertices radius n st).getD (i * (clampSectors n + 1) + j) vertex0 =
      sphereVertex radius (clampSectors n) (clampSphStacks st) i j := by
  unfold sphereVertices
  exact getD_flatMap_range_map _ _ (by omega) (by omega)

-- ======================================================================
-- Helper lemmas: shape of the triangle lists and index bounds
-- ======================================================================

lemma cylinderTriangles_mem {n st : ℕ} {t : ℕ × ℕ × ℕ}
    (ht : t ∈ cylinderTriangles n st) :
    (∃ i < clampCylStacks st, ∃ j < clampSectors n,
        t = (i * (clampSectors n + 1) + j,
             i * (clampSectors n + 1) + j + 1,
             i * (clampSectors n + 1) + j + (clampSectors n + 1)) ∨
        t = (i * (clampSectors n + 1) + j + (clampSectors n + 1),
             i * (clampSectors n + 1) + j + 1,
             i * (clampSectors n + 1) + j + (clampSectors n + 1) + 1)) ∨
    (∃ j < clampSectors n,
        t = ((clampCylStacks st + 1) * (clampSectors n + 1),
             (clampCylStacks st + 1) * (clampSectors n + 1) + 1 + (j + 1),
             (clampCylStacks st + 1) * (clampSectors n + 1) + 1 + j)) ∨
    (∃ j < clampSectors n,
        t = ((clampCylStacks st + 1) * (clampSectors n + 1) + (clampSectors n + 2),
             (clampCylStacks st + 1) * (clampSectors n + 1) + (clampSectors n + 2) + 1 + j,
             (clampCylStacks st + 1) * (clampSectors n + 1) + (clampSectors n + 2) + 1 +
               (j + 1))) := by
  unfold cylinderTriangles at ht
  simp only [List.mem_append, List.mem_flatMap, List.mem_range, List.mem_map,
    List.mem_cons, List.mem_singleton, List.not_mem_nil, or_false] at ht
  rcases ht with (⟨i, hi, j, hj, h⟩ | ⟨j, hj, h⟩) | ⟨j, hj, h⟩
  · exact Or.inl ⟨i, hi, j, hj, h⟩
  · exact Or.inr (Or.inl ⟨j, hj, h.symm⟩)
  · exact Or.inr (Or.inr ⟨j, hj, h.symm⟩)

lemma sphereTriangles_mem {n st : ℕ} {t : ℕ × ℕ × ℕ}
    (ht : t ∈ sphereTriangles n st) :
    ∃ i < clampSphStacks st, ∃ j < clampSectors n,
      t = (i * (clampSectors n + 1) + j,
           i * (clampSectors n + 1) + j + (clampSectors n + 1),
           i * (clampSectors n + 1) + j + 1) ∨
      t = (i * (clampSectors n + 1) + j + 1,
           i * (clampSectors n + 1) + j + (clampSectors n + 1),
           i * (clampSectors n + 1) + j + (clampSectors n + 1) + 1) := by
  unfold sphereTriangles at ht
  simp only [List.mem_flatMap, List.mem_range, List.mem_append] at ht
  obtain ⟨i, hi, j, hj, h⟩ := ht
  refine ⟨i, hi, j, hj, ?_⟩
  rcases h with h | h
  · split at h
    · simp at h
      exact Or.inl h
    · simp at h
  · split at h
    · simp at h
      exact Or.inr h
    · simp at h

lemma flatMap_triples_length (l : List (ℕ × ℕ × ℕ)) :
    (l.flatMap fun t => [t.1, t.2.1, t.2.2]).length = 3 * l.length := by
  induction l with
  | nil => simp
  | cons a l ih => simp [ih]; omega

lemma mem_flatMap_triples {l : List (ℕ × ℕ × ℕ)} {k : ℕ}
    (hk : k ∈ l.flatMap fun t => [t.1, t.2.1, t.2.2]) :
    ∃ t ∈ l, k = t.1 ∨ k = t.2.1 ∨ k = t.2.2 := by
  rw [List.mem_flatMap] at hk
  obtain ⟨t, ht, hkt⟩ := hk
  refine ⟨t, ht, ?_⟩
  simpa using hkt

lemma cylinder_index_bound (n st : ℕ) :
    ∀ k ∈ cylinderIndices n st, k < cylinderVertexCount n st := by
  intro k hk
  obtain ⟨t, ht, hk3⟩ := mem_flatMap_triples hk
  have hcases := cylinderTriangles_mem ht
  rcases hcases with ⟨i, hi, j, hj, h | h⟩ | ⟨j, hj, h⟩ | ⟨j, hj, h⟩ <;>
    subst h <;> rcases hk3 with h | h | h <;> subst h <;>
    simp only [cylinderVertexCount] <;>
    first
      | omega
      | nlinarith [Nat.mul_le_mul_right (clampSectors n + 1)
          (show i + 2 ≤ clampCylStacks st + 1 from by omega)]

lemma sphere_index_bound (n st : ℕ) :
    ∀ k ∈ sphereIndices n st, k < sphereVertexCount n st := by
  intro k hk
  obtain ⟨t, ht, hk3⟩ := mem_flatMap_triples hk
  have hcases := sphereTriangles_mem ht
  rcases hcases with ⟨i, hi, j, hj, h | h⟩ <;>
    subst h <;> rcases hk3 with h | h | h <;> subst h <;>
    simp only [sphereVertexCount] <;>
    first
      | omega
      | nlinarith [Nat.mul_le_mul_right (clampSectors n + 1)
          (show i + 2 ≤ clampSphStacks st + 1 from by omega)]

-- ======================================================================
-- Helper lemmas: trigonometry of the sector angles
-- ======================================================================

lemma sectorAngle_zero (m : ℕ) : sectorAngle m 0 = 0 := by
  simp [sectorAngle]

lemma sectorAngle_full {m : ℕ} (hm : m ≠ 0) : sectorAngle m m = 2 * Real.pi := by
  unfold sectorAngle
  have : (m : ℝ) ≠ 0 := Nat.cast_ne_zero.mpr hm
  field_simp

lemma sectorAngle_succ (m j : ℕ) :
    sectorAngle m (j + 1) = sectorAngle m j + 2 * Real.pi / m := by
  unfold sectorAngle
  push_cast
  ring

lemma sin_sector_delta_pos {m : ℕ} (hm : 3 ≤ m) : 0 < Real.sin (2 * Real.pi / m) := by
  have hpi := Real.pi_pos
  have hm3 : (3 : ℝ) ≤ (m : ℝ) := by exact_mod_cast hm
  have hm0 : (0 : ℝ) < (m : ℝ) := by linarith
  apply Real.sin_pos_of_pos_of_lt_pi
  · exact div_pos (by linarith) hm0
  · rw [div_lt_iff₀ hm0]
    nlinarith

-- ======================================================================
-- Helper lemmas: outward winding of the scenario cylinder triangles
-- ======================================================================

lemma winding_side1 (j : ℕ) :
    0 < vdot
      (triangleFaceNormal
        ((cylSideVertex 0.27 0.27 0.9 36 1 0 j).pos,
         (cylSideVertex 0.27 0.27 0.9 36 1 0 (j + 1)).pos,
         (cylSideVertex 0.27 0.27 0.9 36 1 1 j).pos))
      (triangleCentroid
        ((cylSideVertex 0.27 0.27 0.9 36 1 0 j).pos,
         (cylSideVertex 0.27 0.27 0.9 36 1 0 (j + 1)).pos,
         (cylSideVertex 0.27 0.27 0.9 36 1 1 j).pos)) := by
  have hsd : 0 < Real.sin (2 * Real.pi / 36) := by
    have := sin_sector_delta_pos (m := 36) (by norm_num)
    simpa using this
  have hpy : Real.cos (sectorAngle 36 j) ^ 2 + Real.sin (sectorAngle 36 j) ^ 2 = 1 :=
    Real.cos_sq_add_sin_sq _
  simp only [cylSideVertex, triangleFaceNormal, triangleCentroid, vcross, vsub, vadd,
    vscale, vdot, Nat.cast_zero, Nat.cast_one]
  rw [sectorAngle_succ, Real.cos_add, Real.sin_add]
  have hc36 : ((36 : ℕ) : ℝ) = (36 : ℝ) := by norm_num
  rw [hc36]
  set c := Real.cos (sectorAngle 36 j)
  set s := Real.sin (sectorAngle 36 j)
  set cd := Real.cos (2 * Real.pi / 36)
  set sd := Real.sin (2 * Real.pi / 36)
  have key : (0.27 + (0.27 - 0.27) * ((0:ℝ) / 1)) = 0.27 := by norm_num
  nlinarith [hsd, hpy, sq_nonneg c, sq_nonneg s, mul_pos hsd (show (0:ℝ) < 6561/100000 by norm_num)]

lemma winding_side2 (j : ℕ) :
    0 < vdot
      (triangleFaceNormal
        ((cylSideVertex 0.27 0.27 0.9 36 1 1 j).pos,
         (cylSideVertex 0.27 0.27 0.9 36 1 0 (j + 1)).pos,
         (cylSideVertex 0.27 0.27 0.9 36 1 1 (j + 1)).pos))
      (triangleCentroid
        ((cylSideVertex 0.27 0.27 0.9 36 1 1 j).pos,
         (cylSideVertex 0.27 0.27 0.9 36 1 0 (j + 1)).pos,
         (cylSideVertex 0.27 0.27 0.9 36 1 1 (j + 1)).pos)) := by
  have hsd : 0 < Real.sin (2 * Real.pi / 36) := by
    have := sin_sector_delta_pos (m := 36) (by norm_num)
    simpa using this
  have hpy : Real.cos (sectorAngle 36 j) ^ 2 + Real.sin (sectorAngle 36 j) ^ 2 = 1 :=
    Real.cos_sq_add_sin_sq _
  simp only [cylSideVertex, triangleFaceNormal, triangleCentroid, vcross, vsub, vadd,
    vscale, vdot, Nat.cast_zero, Nat.cast_one]
  rw [sectorAngle_succ, Real.cos_add, Real.sin_add]
  have hc36 : ((36 : ℕ) : ℝ) = (36 : ℝ) := by norm_num
  rw [hc36]
  set c := Real.cos (sectorAngle 36 j)
  set s := Real.sin (sectorAngle 36 j)
  set cd := Real.cos (2 * Real.pi / 36)
  set sd := Real.sin (2 * Real.pi / 36)
  nlinarith [hsd, hpy, sq_nonneg c, sq_nonneg s,
    mul_pos hsd (show (0:ℝ) < 6561/100000 by norm_num)]

lemma winding_base (j : ℕ) :
    0 < vdot
      (triangleFaceNormal
        ((cylCapCenterVertex 0.9 false).pos,
         (cylCapRimVertex 0.27 0.27 0.9 36 false (j + 1)).pos,
         (cylCapRimVertex 0.27 0.27 0.9 36 false j).pos))
      (triangleCentroid
        ((cylCapCenterVertex 0.9 false).pos,
         (cylCapRimVertex 0.27 0.27 0.9 36 false (j + 1)).pos,
         (cylCapRimVertex 0.27 0.27 0.9 36 false j).pos)) := by
  have hsd : 0 < Real.sin (2 * Real.pi / 36) := by
    have := sin_sector_delta_pos (m := 36) (by norm_num)
    simpa using this
  have hpy : Real.cos (sectorAngle 36 j) ^ 2 + Real.sin (sectorAngle 36 j) ^ 2 = 1 :=
    Real.cos_sq_add_sin_sq _
  simp only [cylCapCenterVertex, cylCapRimVertex, triangleFaceNormal, triangleCentroid,
    vcross, vsub, vadd, vscale, vdot, Bool.false_eq_true, if_false]
  rw [sectorAngle_succ, Real.cos_add, Real.sin_add]
  have hc36 : ((36 : ℕ) : ℝ) = (36 : ℝ) := by norm_num
  rw [hc36]
  set c := Real.cos (sectorAngle 36 j)
  set s := Real.sin (sectorAngle 36 j)
  set cd := Real.cos (2 * Real.pi / 36)
  set sd := Real.sin (2 * Real.pi / 36)
  nlinarith [hsd, hpy, sq_nonneg c, sq_nonneg s,
    mul_pos hsd (show (0:ℝ) < 6561/200000 by norm_num)]

lemma winding_top (j : ℕ) :
    0 < vdot
      (triangleFaceNormal
        ((cylCapCenterVertex 0.9 true).pos,
         (cylCapRimVertex 0.27 0.27 0.9 36 true j).pos,
         (cylCapRimVertex 0.27 0.27 0.9 36 true (j + 1)).pos))
      (triangleCentroid
        ((cylCapCenterVertex 0.9 true).pos,
         (cylCapRimVertex 0.27 0.27 0.9 36 true j).pos,
         (cylCapRimVertex 0.27 0.27 0.9 36 true (j + 1)).pos)) := by
  have hsd : 0 < Real.sin (2 * Real.pi / 36) := by
    have := sin_sector_delta_pos (m := 36) (by norm_num)
    simpa using this
  have hpy : Real.cos (sectorAngle 36 j) ^ 2 + Real.sin (sectorAngle 36 j) ^ 2 = 1 :=
    Real.cos_sq_add_sin_sq _
  simp only [cylCapCenterVertex, cylCapRimVertex, triangleFaceNormal, triangleCentroid,
    vcross, vsub, vadd, vscale, vdot, if_true]
  rw [sectorAngle_succ, Real.cos_add, Real.sin_add]
  have hc36 : ((36 : ℕ) : ℝ) = (36 : ℝ) := by norm_num
  rw [hc36]
  set c := Real.cos (sectorAngle 36 j)
  set s := Real.sin (sectorAngle 36 j)
  set cd := Real.cos (2 * Real.pi / 36)
  set sd := Real.sin (2 * Real.pi / 36)
  nlinarith [hsd, hpy, sq_nonneg c, sq_nonneg s,
    mul_pos hsd (show (0:ℝ) < 6561/200000 by norm_num)]

-- ======================================================================
-- Claim theorems
-- ======================================================================

/-- C5: the cylinder generated with the parameters of main
(baseRadius 0.27, topRadius 0.27, height 0.9, 36 sectors, 1 stack, smooth)
has 2 * 37 side-ring vertices plus 2 cap centers plus 2 * 37 cap-rim
vertices = 150 vertices, and every emitted triangle is wound outward: the
face normal obtained from its winding has positive dot product with the
triangle centroid (the vector from the mesh center at the origin). -/
theorem cylinder_scenario_count_and_winding :
    (cylinderVertices 0.27 0.27 0.9 36 1).length = 2 * 37 + 2 + 2 * 37 ∧
    ∀ t ∈ cylinderTriangles 36 1,
      0 < vdot
        (triangleFaceNormal (resolveTriangle (cylinderVertices 0.27 0.27 0.9 36 1) t))
        (triangleCentroid (resolveTriangle (cylinderVertices 0.27 0.27 0.9 36 1) t)) := by
  constructor
  · rw [cylinderVertices_length]
    rfl
  · intro t ht
    have hcases := cylinderTriangles_mem ht
    have hm : clampSectors 36 = 36 := rfl
    have hs : clampCylStacks 1 = 1 := rfl
    rw [hm, hs] at hcases
    rcases hcases with ⟨i, hi, j, hj, h | h⟩ | ⟨j, hj, h⟩ | ⟨j, hj, h⟩
    · have hi0 : i = 0 := by omega
      subst hi0
      subst h
      have e1 := cylinderVertices_getD_side 0.27 0.27 0.9 36 1 0 j
        (Nat.zero_le _) (by rw [hm]; omega)
      have e2 := cylinderVertices_getD_side 0.27 0.27 0.9 36 1 0 (j + 1)
        (Nat.zero_le _) (by rw [hm]; omega)
      have e3 := cylinderVertices_getD_side 0.27 0.27 0.9 36 1 1 j
        (by rw [hs]) (by rw [hm]; omega)
      rw [hm, hs] at e1 e2 e3
      have ha2 : 0 * (36 + 1) + j + 1 = 0 * (36 + 1) + (j + 1) := by omega
      have ha3 : 0 * (36 + 1) + j + (36 + 1) = 1 * (36 + 1) + j := by omega
      simp only [resolveTriangle, ha2, ha3, e1, e2, e3]
      exact winding_side1 j
    · have hi0 : i = 0 := by omega
      subst hi0
      subst h
      have e1 := cylinderVertices_getD_side 0.27 0.27 0.9 36 1 1 j
        (by rw [hs]) (by rw [hm]; omega)
      have e2 := cylinderVertices_getD_side 0.27 0.27 0.9 36 1 0 (j + 1)
        (Nat.zero_le _) (by rw [hm]; omega)
      have e3 := cylinderVertices_getD_side 0.27 0.27 0.9 36 1 1 (j + 1)
        (by rw [hs]) (by rw [hm]; omega)
      rw [hm, hs] at e1 e2 e3
      have ha1 : 0 * (36 + 1) + j + (36 + 1) = 1 * (36 + 1) + j := by omega
      have ha2 : 0 * (36 + 1) + j + 1 = 0 * (36 + 1) + (j + 1) := by omega
      have ha3 : 1 * (36 + 1) + j + 1 = 1 * (36 + 1) + (j + 1) := by omega
      simp only [resolveTriangle, ha1, ha2, ha3, e1, e2, e3]
      exact winding_side2 j
    · subst h
      have e1 := cylinderVertices_getD_baseCenter 0.27 0.27 0.9 36 1
      have e2 := cylinderVertices_getD_baseRim 0.27 0.27 0.9 36 1 (j + 1)
        (by rw [hm]; omega)
      have e3 := cylinderVertices_getD_baseRim 0.27 0.27 0.9 36 1 j
        (by rw [hm]; omega)
      rw [hm, hs] at e1 e2 e3
      simp only [resolveTriangle, e1, e2, e3]
      exact winding_base j
    · subst h
      have e1 := cylinderVertices_getD_topCenter 0.27 0.27 0.9 36 1
      have e2 := cylinderVertices_getD_topRim 0.27 0.27 0.9 36 1 j
        (by rw [hm]; omega)
      have e3 := cylinderVertices_getD_topRim 0.27 0.27 0.9 36 1 (j + 1)
        (by rw [hm]; omega)
      rw [hm, hs] at e1 e2 e3
      simp only [resolveTriangle, e1, e2, e3]
      exact winding_top j

/-- C5 witness: evaluation at the first side triangle (0, 1, 37). -/
theorem cylinder_scenario_count_and_winding_witness :
    (cylinderVertices 0.27 0.27 0.9 36 1).length = 2 * 37 + 2 + 2 * 37 ∧
    (0, 1, 37) ∈ cylinderTriangles 36 1 ∧
    0 < vdot
      (triangleFaceNormal (resolveTriangle (cylinderVertices 0.27 0.27 0.9 36 1) (0, 1, 37)))
      (triangleCentroid (resolveTriangle (cylinderVertices 0.27 0.27 0.9 36 1) (0, 1, 37))) :=
  ⟨cylinder_scenario_count_and_winding.1, by decide,
   cylinder_scenario_count_and_winding.2 (0, 1, 37) (by decide)⟩

/-- C1: for every cylinder mesh with sectorCount at least 3 and stackCount
at least 1, the nIndices value CreateMesh computes from getIndexSize is the
number of stored indices, it is divisible by 3, and every stored index
addresses an existing record of the interleaved vertex sequence. -/
theorem cylinder_index_invariant (sectorCount stackCount : ℕ)
    (hsec : 3 ≤ sectorCount) (hst : 1 ≤ stackCount) :
    createMeshNIndices (cylinderIndexByteSize sectorCount stackCount) =
      (cylinderIndices sectorCount stackCount).length ∧
    3 ∣ createMeshNIndices (cylinderIndexByteSize sectorCount stackCount) ∧
    ∀ baseRadius topRadius height : ℝ,
      ∀ k ∈ cylinderIndices sectorCount stackCount,
        k < (cylinderVertices baseRadius topRadius height sectorCount stackCount).length := by
  have hlen : createMeshNIndices (cylinderIndexByteSize sectorCount stackCount) =
      (cylinderIndices sectorCount stackCount).length := by
    unfold createMeshNIndices cylinderIndexByteSize
    omega
  refine ⟨hlen, ?_, ?_⟩
  · rw [hlen]
    unfold cylinderIndices
    rw [flatMap_triples_length]
    exact dvd_mul_right 3 _
  · intro baseRadius topRadius height k hk
    rw [cylinderVertices_length]
    exact cylinder_index_bound sectorCount stackCount k hk

/-- C1 witness: the parameters of main, 36 sectors and 1 stack, evaluated at
the stored index 37. -/
theorem cylinder_index_invariant_witness :
    3 ≤ 36 ∧ 1 ≤ 1 ∧
    createMeshNIndices (cylinderIndexByteSize 36 1) = (cylinderIndices 36 1).length ∧
    3 ∣ createMeshNIndices (cylinderIndexByteSize 36 1) ∧
    37 ∈ cylinderIndices 36 1 ∧
    37 < (cylinderVertices 0.27 0.27 0.9 36 1).length :=
  ⟨by norm_num, by norm_num,
   (cylinder_index_invariant 36 1 (by norm_num) (by norm_num)).1,
   (cylinder_index_invariant 36 1 (by norm_num) (by norm_num)).2.1,
   by decide,
   (cylinder_index_invariant 36 1 (by norm_num) (by norm_num)).2.2 0.27 0.27 0.9 37
     (by decide)⟩

lemma sphereVertex_vdot_pos (radius : ℝ) (m s i j : ℕ) :
    vdot (sphereVertex radius m s i j).pos (sphereVertex radius m s i j).pos =
      radius ^ 2 := by
  have h1 : Real.sin (sectorAngle m j) ^ 2 + Real.cos (sectorAngle m j) ^ 2 = 1 :=
    Real.sin_sq_add_cos_sq _
  have h2 : Real.sin (Real.pi / 2 - (i : ℝ) * (Real.pi / (s : ℝ))) ^ 2 +
      Real.cos (Real.pi / 2 - (i : ℝ) * (Real.pi / (s : ℝ))) ^ 2 = 1 :=
    Real.sin_sq_add_cos_sq _
  unfold vdot sphereVertex
  dsimp only
  linear_combination
    (radius ^ 2 * Real.cos (Real.pi / 2 - (i : ℝ) * (Real.pi / (s : ℝ))) ^ 2) * h1 +
    radius ^ 2 * h2

lemma sphereVertex_vnorm_pos (radius : ℝ) (hr : 0 ≤ radius) (m s i j : ℕ) :
    vnorm (sphereVertex radius m s i j).pos = radius := by
  unfold vnorm
  rw [sphereVertex_vdot_pos, Real.sqrt_sq hr]

/-- C2: every vertex of a generated sphere mesh stores as its normal the
position divided by its length (the closed-form identity
normal = position / radius, not an average of face normals). -/
theorem sphere_normal_is_unit_position (radius : ℝ) (sectorCount stackCount : ℕ)
    (hr : 0 < radius) (hsec : 3 ≤ sectorCount) (hst : 2 ≤ stackCount) :
    ∀ v ∈ sphereVertices radius sectorCount stackCount,
      vnorm v.pos = radius ∧ v.normal = vscale (1 / vnorm v.pos) v.pos := by
  intro v hv
  unfold sphereVertices at hv
  rw [List.mem_flatMap] at hv
  obtain ⟨i, hi, hv⟩ := hv
  rw [List.mem_map] at hv
  obtain ⟨j, hj, rfl⟩ := hv
  have hn := sphereVertex_vnorm_pos radius hr.le (clampSectors sectorCount)
    (clampSphStacks stackCount) i j
  refine ⟨hn, ?_⟩
  rw [hn]
  have hr0 : radius ≠ 0 := ne_of_gt hr
  unfold sphereVertex vscale
  dsimp only
  rw [Prod.mk.injEq, Prod.mk.injEq]
  refine ⟨?_, ?_, ?_⟩ <;> field_simp <;> ring

/-- C2 witness: the sphere of main (radius 0.4, 36 sectors, 18 stacks),
evaluated at the first emitted vertex. -/
theorem sphere_normal_is_unit_position_witness :
    (0 : ℝ) < 0.4 ∧ (3 : ℕ) ≤ 36 ∧ (2 : ℕ) ≤ 18 ∧
    vnorm (sphereVertex 0.4 (clampSectors 36) (clampSphStacks 18) 0 0).pos = 0.4 ∧
    (sphereVertex 0.4 (clampSectors 36) (clampSphStacks 18) 0 0).normal =
      vscale (1 / vnorm (sphereVertex 0.4 (clampSectors 36) (clampSphStacks 18) 0 0).pos)
        (sphereVertex 0.4 (clampSectors 36) (clampSphStacks 18) 0 0).pos := by
  have hmem : sphereVertex 0.4 (clampSectors 36) (clampSphStacks 18) 0 0 ∈
      sphereVertices 0.4 36 18 := by
    unfold sphereVertices
    exact List.mem_flatMap.mpr ⟨0, List.mem_range.mpr (by norm_num [clampSphStacks]),
      List.mem_map.mpr ⟨0, List.mem_range.mpr (by norm_num [clampSectors]), rfl⟩⟩
  have := sphere_normal_is_unit_position 0.4 36 18 (by norm_num) (by norm_num) (by norm_num)
    (sphereVertex 0.4 (clampSectors 36) (clampSphStacks 18) 0 0) hmem
  exact ⟨by norm_num, by norm_num, by norm_num, this.1, this.2⟩

lemma clampSectors_ne_zero (n : ℕ) : clampSectors n ≠ 0 := by
  unfold clampSectors
  split <;> omega

lemma clampSectors_cast_ne_zero (n : ℕ) : ((clampSectors n : ℕ) : ℝ) ≠ 0 :=
  Nat.cast_ne_zero.mpr (clampSectors_ne_zero n)

/-- C6: seam closure of the texture-wrap rings.  In both generated surfaces
of revolution, the vertex a ring emits at sector index 0 and the duplicate
seam vertex it emits at sector index sectorCount have identical 3D
positions, and their s texture coordinates differ by exactly 1 (0 on one
side of the seam, 1 on the other).  The rings carrying the wraparound
parameterization are the cylinder side rings and the sphere stack rows;
cap rims carry a disk projection instead and so are outside the wrap
parameterization this sentence describes. -/
theorem seam_closure_wrap_rings :
    (∀ (baseRadius topRadius height : ℝ) (n st i : ℕ), i ≤ clampCylStacks st →
      ((cylinderVertices baseRadius topRadius height n st).getD
          (i * (clampSectors n + 1) + 0) vertex0).pos =
        ((cylinderVertices baseRadius topRadius height n st).getD
          (i * (clampSectors n + 1) + clampSectors n) vertex0).pos ∧
      ((cylinderVertices baseRadius topRadius height n st).getD
          (i * (clampSectors n + 1) + clampSectors n) vertex0).uv.1 -
        ((cylinderVertices baseRadius topRadius height n st).getD
          (i * (clampSectors n + 1) + 0) vertex0).uv.1 = 1) ∧
    (∀ (radius : ℝ) (n st i : ℕ), i ≤ clampSphStacks st →
      ((sphereVertices radius n st).getD (i * (clampSectors n + 1) + 0) vertex0).pos =
        ((sphereVertices radius n st).getD
          (i * (clampSectors n + 1) + clampSectors n) vertex0).pos ∧
      ((sphereVertices radius n st).getD
          (i * (clampSectors n + 1) + clampSectors n) vertex0).uv.1 -
        ((sphereVertices radius n st).getD (i * (clampSectors n + 1) + 0) vertex0).uv.1
        = 1) := by
  constructor
  · intro baseRadius topRadius height n st i hi
    rw [cylinderVertices_getD_side _ _ _ _ _ _ _ hi (Nat.zero_le _),
        cylinderVertices_getD_side _ _ _ _ _ _ _ hi (le_refl _)]
    unfold cylSideVertex
    dsimp only
    rw [sectorAngle_zero, sectorAngle_full (clampSectors_ne_zero n),
        Real.cos_two_pi, Real.sin_two_pi, Real.cos_zero, Real.sin_zero]
    refine ⟨rfl, ?_⟩
    rw [Nat.cast_zero, div_self (clampSectors_cast_ne_zero n), zero_div, sub_zero]
  · intro radius n st i hi
    rw [sphereVertices_getD _ _ _ _ _ hi (Nat.zero_le _),
        sphereVertices_getD _ _ _ _ _ hi (le_refl _)]
    unfold sphereVertex
    dsimp only
    rw [sectorAngle_zero, sectorAngle_full (clampSectors_ne_zero n),
        Real.cos_two_pi, Real.sin_two_pi, Real.cos_zero, Real.sin_zero]
    refine ⟨rfl, ?_⟩
    rw [Nat.cast_zero, div_self (clampSectors_cast_ne_zero n), zero_div, sub_zero]

/-- C6 witness: the base ring of the cylinder of main and the top row of
the sphere of main. -/
theorem seam_closure_wrap_rings_witness :
    (0 ≤ clampCylStacks 1 ∧
      ((cylinderVertices 0.27 0.27 0.9 36 1).getD
          (0 * (clampSectors 36 + 1) + 0) vertex0).pos =
        ((cylinderVertices 0.27 0.27 0.9 36 1).getD
          (0 * (clampSectors 36 + 1) + clampSectors 36) vertex0).pos ∧
      ((cylinderVertices 0.27 0.27 0.9 36 1).getD
          (0 * (clampSectors 36 + 1) + clampSectors 36) vertex0).uv.1 -
        ((cylinderVertices 0.27 0.27 0.9 36 1).getD
          (0 * (clampSectors 36 + 1) + 0) vertex0).uv.1 = 1) ∧
    (0 ≤ clampSphStacks 18 ∧
      ((sphereVertices 0.4 36 18).getD (0 * (clampSectors 36 + 1) + 0) vertex0).pos =
        ((sphereVertices 0.4 36 18).getD
          (0 * (clampSectors 36 + 1) + clampSectors 36) vertex0).pos ∧
      ((sphereVertices 0.4 36 18).getD
          (0 * (clampSectors 36 + 1) + clampSectors 36) vertex0).uv.1 -
        ((sphereVertices 0.4 36 18).getD (0 * (clampSectors 36 + 1) + 0) vertex0).uv.1
        = 1) := by
  have h1 := seam_closure_wrap_rings.1 0.27 0.27 0.9 36 1 0 (Nat.zero_le _)
  have h2 := seam_closure_wrap_rings.2 0.4 36 18 0 (Nat.zero_le _)
  exact ⟨⟨Nat.zero_le _, h1.1, h1.2⟩, ⟨Nat.zero_le _, h2.1, h2.2⟩⟩

/-- C7: in a smooth cylinder with equal base and top radius, the side
normal depends only on the sector angle: two side vertices at the same
sector index but different stack levels store identical normal vectors
(the normal is computed from the sector angle alone and reused at every
stack level). -/
theorem cylinder_side_normal_stack_independent
    (baseRadius topRadius height : ℝ) (n st i1 i2 j : ℕ)
    (hbt : baseRadius = topRadius)
    (h1 : i1 ≤ clampCylStacks st) (h2 : i2 ≤ clampCylStacks st)
    (hj : j ≤ clampSectors n) :
    ((cylinderVertices baseRadius topRadius height n st).getD
        (i1 * (clampSectors n + 1) + j) vertex0).normal =
      ((cylinderVertices baseRadius topRadius height n st).getD
        (i2 * (clampSectors n + 1) + j) vertex0).normal := by
  rw [cylinderVertices_getD_side _ _ _ _ _ _ _ h1 hj,
      cylinderVertices_getD_side _ _ _ _ _ _ _ h2 hj]
  unfold cylSideVertex
  dsimp only

/-- C7 witness: the two stack levels of the cylinder of main at sector 5. -/
theorem cylinder_side_normal_stack_independent_witness :
    (0.27 : ℝ) = 0.27 ∧ 0 ≤ clampCylStacks 1 ∧ 1 ≤ clampCylStacks 1 ∧
    5 ≤ clampSectors 36 ∧
    ((cylinderVertices 0.27 0.27 0.9 36 1).getD
        (0 * (clampSectors 36 + 1) + 5) vertex0).normal =
      ((cylinderVertices 0.27 0.27 0.9 36 1).getD
        (1 * (clampSectors 36 + 1) + 5) vertex0).normal :=
  ⟨rfl, Nat.zero_le _, by decide, by decide,
   cylinder_side_normal_stack_independent 0.27 0.27 0.9 36 1 0 1 5 rfl
     (Nat.zero_le _) (by decide) (by decide)⟩

lemma clampSectors_idem (n : ℕ) : clampSectors (clampSectors n) = clampSectors n := by
  unfold clampSectors
  split_ifs <;> omega

lemma clampCylStacks_idem (st : ℕ) :
    clampCylStacks (clampCylStacks st) = clampCylStacks st := by
  unfold clampCylStacks
  split_ifs <;> omega

lemma clampSphStacks_idem (st : ℕ) :
    clampSphStacks (clampSphStacks st) = clampSphStacks st := by
  unfold clampSphStacks
  split_ifs <;> omega

/-- C3: for every parameter tuple, valid or not, the generators are total
functions that clamp out-of-range counts to the minimum usable values and
always return a complete, internally consistent mesh; in particular the
mesh generated from arbitrary counts equals the mesh generated from the
clamped counts, its index count is a multiple of 3, and every index is in
range of the vertex sequence. -/
theorem generators_clamp_and_never_fail :
    ∀ (baseRadius topRadius height radius : ℝ) (n st : ℕ),
      cylinderVertices baseRadius topRadius height n st =
        cylinderVertices baseRadius topRadius height (clampSectors n) (clampCylStacks st) ∧
      cylinderTriangles n st =
        cylinderTriangles (clampSectors n) (clampCylStacks st) ∧
      sphereVertices radius n st =
        sphereVertices radius (clampSectors n) (clampSphStacks st) ∧
      sphereTriangles n st = sphereTriangles (clampSectors n) (clampSphStacks st) ∧
      3 ∣ (cylinderIndices n st).length ∧
      (∀ k ∈ cylinderIndices n st,
        k < (cylinderVertices baseRadius topRadius height n st).length) ∧
      3 ∣ (sphereIndices n st).length ∧
      (∀ k ∈ sphereIndices n st, k < (sphereVertices radius n st).length) := by
  intro baseRadius topRadius height radius n st
  refine ⟨?_, ?_, ?_, ?_, ?_, ?_, ?_, ?_⟩
  · unfold cylinderVertices
    rw [clampSectors_idem, clampCylStacks_idem]
  · unfold cylinderTriangles
    rw [clampSectors_idem, clampCylStacks_idem]
  · unfold sphereVertices
    rw [clampSectors_idem, clampSphStacks_idem]
  · unfold sphereTriangles
    rw [clampSectors_idem, clampSphStacks_idem]
  · unfold cylinderIndices
    rw [flatMap_triples_length]
    exact dvd_mul_right 3 _
  · intro k hk
    rw [cylinderVertices_length]
    exact cylinder_index_bound n st k hk
  · unfold sphereIndices
    rw [flatMap_triples_length]
    exact dvd_mul_right 3 _
  · intro k hk
    rw [sphereVertices_length]
    exact sphere_index_bound n st k hk

/-- C3 witness: the invalid tuple of zero counts and a negative radius,
evaluated at the stored cylinder index 1 and sphere index 1. -/
theorem generators_clamp_and_never_fail_witness :
    cylinderVertices (-1) (-1) 0.9 0 0 =
      cylinderVertices (-1) (-1) 0.9 (clampSectors 0) (clampCylStacks 0) ∧
    cylinderTriangles 0 0 = cylinderTriangles (clampSectors 0) (clampCylStacks 0) ∧
    sphereVertices (-1) 0 0 = sphereVertices (-1) (clampSectors 0) (clampSphStacks 0) ∧
    sphereTriangles 0 0 = sphereTriangles (clampSectors 0) (clampSphStacks 0) ∧
    3 ∣ (cylinderIndices 0 0).length ∧
    (1 ∈ cylinderIndices 0 0 ∧ 1 < (cylinderVertices (-1) (-1) 0.9 0 0).length) ∧
    3 ∣ (sphereIndices 0 0).length ∧
    (1 ∈ sphereIndices 0 0 ∧ 1 < (sphereVertices (-1) 0 0).length) := by
  have h := generators_clamp_and_never_fail (-1) (-1) 0.9 (-1) 0 0
  exact ⟨h.1, h.2.1, h.2.2.1, h.2.2.2.1, h.2.2.2.2.1,
    ⟨by decide, h.2.2.2.2.2.1 1 (by decide)⟩,
    h.2.2.2.2.2.2.1,
    ⟨by decide, h.2.2.2.2.2.2.2 1 (by decide)⟩⟩

/-- C8: the generators are deterministic pure functions of their
parameters: two invocations with identical parameters produce identical
vertex sequences and identical index sequences; no other program state
enters the result. -/
theorem generators_deterministic
    (br1 tr1 hh1 r1 br2 tr2 hh2 r2 : ℝ) (n1 st1 n2 st2 : ℕ)
    (hbr : br1 = br2) (htr : tr1 = tr2) (hh : hh1 = hh2) (hr : r1 = r2)
    (hn : n1 = n2) (hst : st1 = st2) :
    cylinderVertices br1 tr1 hh1 n1 st1 = cylinderVertices br2 tr2 hh2 n2 st2 ∧
    cylinderIndices n1 st1 = cylinderIndices n2 st2 ∧
    sphereVertices r1 n1 st1 = sphereVertices r2 n2 st2 ∧
    sphereIndices n1 st1 = sphereIndices n2 st2 := by
  subst hbr htr hh hr hn hst
  exact ⟨rfl, rfl, rfl, rfl⟩

/-- C8 witness: the parameter tuples of main, passed twice. -/
theorem generators_deterministic_witness :
    (0.27 : ℝ) = 0.27 ∧ (0.9 : ℝ) = 0.9 ∧ (0.4 : ℝ) = 0.4 ∧
    (36 : ℕ) = 36 ∧ (1 : ℕ) = 1 ∧ (18 : ℕ) = 18 ∧
    cylinderVertices 0.27 0.27 0.9 36 1 = cylinderVertices 0.27 0.27 0.9 36 1 ∧
    cylinderIndices 36 1 = cylinderIndices 36 1 ∧
    sphereVertices 0.4 36 18 = sphereVertices 0.4 36 18 ∧
    sphereIndices 36 18 = sphereIndices 36 18 := by
  have h1 := generators_deterministic 0.27 0.27 0.9 0.4 0.27 0.27 0.9 0.4 36 1 36 1
    rfl rfl rfl rfl rfl rfl
  have h2 := generators_deterministic 0.27 0.27 0.9 0.4 0.27 0.27 0.9 0.4 36 18 36 18
    rfl rfl rfl rfl rfl rfl
  exact ⟨rfl, rfl, rfl, rfl, rfl, rfl, h1.1, h1.2.1, h2.2.2.1, h2.2.2.2⟩

/-- C4 is refuted on the code: the fragment shader computes its Phong sum
from the single lightColor / lightPos uniform pair, so at the concrete
fragment failInput it produces the single-light value (1.9, 1.9, 1.9) and
not the claimed two-source value that would also include the ambient,
diffuse and specular contributions of the fill light. -/
theorem fragment_shader_is_single_light :
    fragmentShaderMain failInput = (19 / 10, 19 / 10, 19 / 10) ∧
    fragmentShaderMain failInput ≠
      twoSourcePhongShade failInput.lightColor failInput.lightPos
        fillLightColor fillLightPos failInput.viewPosition failInput.vertexNormal
        failInput.vertexFragmentPos failInput.textureColor := by
  constructor
  · norm_num [fragmentShaderMain, phongTerms, failInput, qnormalize, qdot, qscale,
      qsub, qadd, qmul, qreflect, ratSqrt, max_def, Prod.ext_iff,
      show Int.toNat 4 = 4 from rfl, show Int.toNat 9 = 9 from rfl]
  · norm_num [fragmentShaderMain, twoSourcePhongShade, phongTerms, failInput,
      fillLightColor, fillLightPos, qnormalize, qdot, qscale, qsub, qadd, qmul,
      qreflect, ratSqrt, max_def, Prod.ext_iff,
      show Int.toNat 4 = 4 from rfl, show Int.toNat 9 = 9 from rfl]

lemma teardown_preserves_allocated (ids : List ℕ) (s : GLTexState) (t : ℕ)
    (ht : t ∈ s.allocated) : t ∈ (teardownTextures s ids).allocated := by
  induction ids generalizing s with
  | nil => exact ht
  | cons a ids ih =>
    exact ih _ (List.mem_cons_of_mem _ ht)

/-- C9 is refuted on the code: DestroyTexture never releases the texture
named by its argument.  Its body is glGenTextures, so after the call the
argument texture is still allocated and one more texture name has been
allocated; consequently every texture loaded at startup is still allocated
after the whole teardown loop of main. -/
theorem destroyTexture_releases_nothing (s : GLTexState) (t : ℕ)
    (ht : t ∈ s.allocated) :
    t ∈ (destroyTexture s t).allocated ∧
    (destroyTexture s t).allocated.length = s.allocated.length + 1 ∧
    ∀ ids : List ℕ, t ∈ (teardownTextures s ids).allocated := by
  refine ⟨List.mem_cons_of_mem _ ht, rfl, ?_⟩
  intro ids
  exact teardown_preserves_allocated ids s t ht

/-- C9 witness: a context holding texture 7; DestroyTexture(7) leaves 7
allocated, grows the allocation list, and an eight-call teardown still
leaves 7 allocated. -/
theorem destroyTexture_releases_nothing_witness :
    7 ∈ (GLTexState.mk [7] 8).allocated ∧
    7 ∈ (destroyTexture (GLTexState.mk [7] 8) 7).allocated ∧
    (destroyTexture (GLTexState.mk [7] 8) 7).allocated.length =
      (GLTexState.mk [7] 8).allocated.length + 1 ∧
    7 ∈ (teardownTextures (GLTexState.mk [7] 8) [7, 7, 7, 7, 7, 7, 7, 7]).allocated := by
  have h := destroyTexture_releases_nothing (GLTexState.mk [7] 8) 7 (by decide)
  exact ⟨by decide, h.1, h.2.1, h.2.2 [7, 7, 7, 7, 7, 7, 7, 7]⟩

lemma pressesP_PCount (k : ℕ) : (pressesP k).PCount = k := by
  induction k with
  | zero => rfl
  | succ k ih =>
    unfold pressesP at ih ⊢
    rw [Function.iterate_succ_apply']
    have hstep : ∀ s, (processPKey s).PCount = s.PCount + 1 := by
      intro s
      unfold processPKey
      split <;> rfl
    rw [hstep, ih]

/-- C10: the P-key handler reads PCount before incrementing it, so after
the k-th processed press (counting from 1) the projection is orthographic
exactly when k is even; the first press leaves perspective on and the
orthographic view first appears on the second press. -/
theorem p_key_projection_parity (k : ℕ) (hk : 1 ≤ k) :
    (pressesP k).PCount = k ∧
    ((pressesP k).projection = ProjectionMode.orthographic ↔ k % 2 = 0) ∧
    (pressesP 1).projection = ProjectionMode.perspective ∧
    (pressesP 2).projection = ProjectionMode.orthographic := by
  refine ⟨pressesP_PCount k, ?_, rfl, rfl⟩
  obtain ⟨j, rfl⟩ : ∃ j, k = j + 1 := ⟨k - 1, by omega⟩
  have hpc : (pressesP j).PCount = j := pressesP_PCount j
  have hstep : pressesP (j + 1) = processPKey (pressesP j) := by
    unfold pressesP
    exact Function.iterate_succ_apply' _ _ _
  rw [hstep]
  generalize pressesP j = s0 at hpc
  unfold processPKey
  split
  · rename_i h
    rw [hpc] at h
    exact ⟨fun _ => by omega, fun _ => rfl⟩
  · rename_i h
    rw [hpc] at h
    constructor
    · intro hcontra
      simp at hcontra
    · intro hparity
      exact absurd hparity (by omega)

/-- C10 witness: the second processed press turns the orthographic view on. -/
theorem p_key_projection_parity_witness :
    1 ≤ 2 ∧
    (pressesP 2).PCount = 2 ∧
    ((pressesP 2).projection = ProjectionMode.orthographic ↔ 2 % 2 = 0) ∧
    (pressesP 1).projection = ProjectionMode.perspective ∧
    (pressesP 2).projection = ProjectionMode.orthographic :=
  ⟨by norm_num, (p_key_projection_parity 2 (by norm_num)).1,
   (p_key_projection_parity 2 (by norm_num)).2.1,
   (p_key_projection_parity 2 (by norm_num)).2.2.1,
   (p_key_projection_parity 2 (by norm_num)).2.2.2⟩
